import Mathlib

/-!
# Verification of the task/project/checklist tracker data layer

A shallow embedding of the Node/Express + SQLite application
(`backend/database.js`, `backend/routes/*.js`,
`backend/middleware/validation.js`).  Tables become Lean lists of row
structures kept in insertion (rowid) order; `database.run` /
`database.get` / `database.all` become list operations
(`filter`, `find?`, `map`, append); `database.transaction` becomes an
`Except`-valued body whose error case leaves the store unchanged
(BEGIN / COMMIT / ROLLBACK semantics).  `REAL` columns are embedded as
`Rat`, `DATE`/`DATETIME` values as `Nat` stamps, and HTTP responses as a
status code together with the JSON `data` payload.
-/

namespace TaskManager

/-- HTTP-level outcome of a route handler: `ok code data` mirrors
`res.status(code).json({success:true, data})`, `err code` mirrors
`res.status(code).json({success:false, ...})`. -/
inductive Resp (α : Type) where
  | ok (code : Nat) (data : α)
  | err (code : Nat)
deriving Repr, DecidableEq

/-- Row of the `tasks` table (`database.js`): id, name (len ≥ 3), creator
(len ≥ 2), status ∈ {pending, approved, rejected} default `pending`,
optional approver/timer, completed default 0, timestamps. -/
structure TaskRow where
  id : Nat
  name : String
  creator : String
  status : String
  approver : Option String
  timer : Option String
  completed : Bool
  created_at : Nat
  updated_at : Nat
deriving Repr, DecidableEq

/-- Row of the `articles` table: id, headline (len ≥ 5), link. -/
structure ArticleRow where
  id : Nat
  headline : String
  link : String
  created_at : Nat
deriving Repr, DecidableEq

/-- Row of the `checklists` table: opaque string id, title (len ≥ 3),
description default `''`, theme default `'blue'`, timestamps. -/
structure ChecklistRow where
  id : String
  title : String
  description : String
  theme : String
  created_at : Nat
  updated_at : Nat
deriving Repr, DecidableEq

/-- Row of the `checklist_tasks` table: string id, owning checklist id,
title, priority ∈ {High, Medium, Low}, completed. -/
structure ChecklistTaskRow where
  id : String
  checklist_id : String
  title : String
  priority : String
  completed : Bool
  created_at : Nat
deriving Repr, DecidableEq

/-- Row of the `subtasks` table: string id, owning checklist-task id,
title (len ≥ 2), completed. -/
structure SubtaskRow where
  id : String
  task_id : String
  title : String
  completed : Bool
  created_at : Nat
deriving Repr, DecidableEq

/-- Row of the `projects` table. -/
structure ProjectRow where
  id : Nat
  name : String
  description : String
  start_date : Option Nat
  end_date : Option Nat
  status : String
  priority : String
  manager : Option String
  budget : Option Rat
  created_at : Nat
  updated_at : Nat
deriving Repr, DecidableEq

/-- Row of the `project_tasks` join table; `(project_id, task_id)` is
UNIQUE in the schema. -/
structure ProjectTaskRow where
  id : Nat
  project_id : Nat
  task_id : Nat
deriving Repr, DecidableEq

/-- Row of the `project_milestones` table. -/
structure MilestoneRow where
  id : Nat
  project_id : Nat
  title : String
  description : String
  due_date : Option Nat
  completed : Bool
deriving Repr, DecidableEq

/-- Row of the `resource_allocations` table. -/
structure ResourceRow where
  id : Nat
  project_id : Nat
  resource_name : String
  role : String
  hours_per_week : Rat
  start_date : Option Nat
  end_date : Option Nat
  hourly_rate : Rat
deriving Repr, DecidableEq

/-- Row of the `daily_tasks` table; `actual_hours` is recomputed by the
progress-append route. -/
structure DailyTaskRow where
  id : Nat
  title : String
  description : String
  assigned_to : String
  priority : String
  status : String
  due_date : Nat
  estimated_hours : Rat
  actual_hours : Rat
  created_at : Nat
  updated_at : Nat
deriving Repr, DecidableEq

/-- Row of the `daily_task_progress` table. -/
structure DailyTaskProgressRow where
  id : Nat
  daily_task_id : Nat
  progress_date : Nat
  hours_spent : Rat
  progress_percentage : Nat
  notes : String
deriving Repr, DecidableEq

/-- The embedded relational store: one list per table, in rowid
(insertion) order, plus the AUTOINCREMENT counters for the
integer-keyed tables the claims touch. -/
structure Store where
  tasks : List TaskRow
  nextTaskId : Nat
  articles : List ArticleRow
  nextArticleId : Nat
  checklists : List ChecklistRow
  checklistTasks : List ChecklistTaskRow
  subtasks : List SubtaskRow
  projects : List ProjectRow
  nextProjectId : Nat
  projectTasks : List ProjectTaskRow
  nextProjectTaskId : Nat
  milestones : List MilestoneRow
  resources : List ResourceRow
  dailyTasks : List DailyTaskRow
  nextDailyTaskId : Nat
  dailyTaskProgress : List DailyTaskProgressRow
  nextProgressId : Nat
deriving Repr, DecidableEq

/-- The ECMAScript `String.prototype.trim` used by the route handlers
and the Joi `trim()` modifier: strip whitespace from both ends. -/
def jsTrim (s : String) : String :=
  ⟨((s.data.dropWhile Char.isWhitespace).reverse.dropWhile Char.isWhitespace).reverse⟩

/-- The `status` CHECK-constraint enum of the `tasks` table, also the
`valid(...)` list of `taskUpdateSchema` in `validation.js`. -/
def taskStatusEnum : List String := ["pending", "approved", "rejected"]

/-- Body of `POST /api/tasks` before validation (`req.body`): fields are
`Option` because JSON keys may be absent. -/
structure TaskCreateBody where
  name : Option String
  creator : Option String
deriving Repr, DecidableEq

/-- Schema `taskSchema` of `validation.js`: `name` required, trimmed,
3 ≤ len ≤ 255; `creator` required, trimmed, 2 ≤ len ≤ 100. -/
def validTaskCreate (b : TaskCreateBody) : Bool :=
  (match b.name with
   | none => false
   | some v => 3 ≤ (jsTrim v).length && (jsTrim v).length ≤ 255)
  && (match b.creator with
      | none => false
      | some v => 2 ≤ (jsTrim v).length && (jsTrim v).length ≤ 100)

/-- Body of `PUT /api/tasks/:id` restricted to the keys
`taskUpdateSchema` recognizes (unknown keys are stripped by
`stripUnknown: true`). -/
structure TaskUpdateBody where
  status : Option String
  approver : Option String
  timer : Option String
  completed : Option Bool
deriving Repr, DecidableEq

/-- Schema `taskUpdateSchema` of `validation.js`: `status` must be one of the
enum; `approver` a string with 2 ≤ len ≤ 100; `timer` a string — and
`Joi.string()` rejects the empty string by default (no `.allow('')`),
so a supplied timer must be non-empty; `completed` a boolean; and
`.min(1)` requires at least one recognized key after unknown keys were
stripped. -/
def validTaskUpdate (b : TaskUpdateBody) : Bool :=
  (match b.status with
   | none => true
   | some v => taskStatusEnum.contains v)
  && (match b.approver with
      | none => true
      | some v => 2 ≤ v.length && v.length ≤ 100)
  && (match b.timer with
      | none => true
      | some v => 1 ≤ v.length)
  && (b.status.isSome || b.approver.isSome || b.timer.isSome || b.completed.isSome)

/-- Route `POST /api/tasks` (`routes/tasks.js`): validate, `INSERT INTO tasks
(name, creator) VALUES (?, ?)` — all other columns take their schema
defaults — then re-fetch the row by `lastID`.  `now` stands for
`CURRENT_TIMESTAMP`. -/
def createTask (b : TaskCreateBody) (now : Nat) (s : Store) :
    Resp (Option TaskRow) × Store :=
  if !validTaskCreate b then (.err 400, s)
  else
    let row : TaskRow :=
      { id := s.nextTaskId
        name := jsTrim (b.name.getD "")
        creator := jsTrim (b.creator.getD "")
        status := "pending"
        approver := none
        timer := none
        completed := false
        created_at := now
        updated_at := now }
    let s' : Store := { s with tasks := s.tasks ++ [row], nextTaskId := s.nextTaskId + 1 }
    (.ok 201 (s'.tasks.find? (fun t => t.id = row.id)), s')

/-- The per-row effect of the `UPDATE tasks SET ...` built by
`PUT /api/tasks/:id` from the validated body, together with the
`update_tasks_timestamp` trigger stamping `updated_at`. -/
def TaskRow.patch (b : TaskUpdateBody) (now : Nat) (t : TaskRow) : TaskRow :=
  { t with
    status := b.status.getD t.status
    approver := match b.approver with | none => t.approver | some v => some v
    timer := match b.timer with | none => t.timer | some v => some v
    completed := b.completed.getD t.completed
    updated_at := now }

/-- Route `PUT /api/tasks/:id` (`routes/tasks.js`): validate the body, 404 if
the row is absent, apply a SET clause over exactly the supplied fields,
re-fetch and return the updated row. -/
def updateTask (id : Nat) (b : TaskUpdateBody) (now : Nat) (s : Store) :
    Resp (Option TaskRow) × Store :=
  if !validTaskUpdate b then (.err 400, s)
  else
    match s.tasks.find? (fun t => t.id = id) with
    | none => (.err 404, s)
    | some _ =>
      let s' : Store := { s with
        tasks := s.tasks.map (fun t => if t.id = id then t.patch b now else t) }
      (.ok 200 (s'.tasks.find? (fun t => t.id = id)), s')

/-- Route `DELETE /api/tasks/:id` (`routes/tasks.js`): `DELETE FROM tasks
WHERE id = ?`; `changes === 0` is mapped to 404. -/
def deleteTask (id : Nat) (s : Store) : Resp Unit × Store :=
  let changes := (s.tasks.filter (fun t => t.id = id)).length
  let s' : Store := { s with tasks := s.tasks.filter (fun t => !(t.id = id)) }
  if changes = 0 then (.err 404, s') else (.ok 200 (), s')

/-- Route `GET /api/tasks/:id` (`routes/tasks.js`): fetch one row, 404 when
absent. -/
def getTask (id : Nat) (s : Store) : Resp TaskRow × Store :=
  match s.tasks.find? (fun t => t.id = id) with
  | none => (.err 404, s)
  | some t => (.ok 200 t, s)

/-- Result shape of `GET /api/tasks/stats/summary`. -/
structure TaskStats where
  total : Nat
  completed : Nat
  pending : Nat
  approved : Nat
  rejected : Nat
deriving Repr, DecidableEq

/-- Route `GET /api/tasks/stats/summary` (`routes/tasks.js`): `COUNT(*)` and
the four `SUM(CASE WHEN ... THEN 1 ELSE 0 END)` aggregates over
`tasks`. -/
def taskStats (s : Store) : TaskStats :=
  { total := s.tasks.length
    completed := (s.tasks.filter (fun t => t.completed)).length
    pending := (s.tasks.filter (fun t => t.status = "pending")).length
    approved := (s.tasks.filter (fun t => t.status = "approved")).length
    rejected := (s.tasks.filter (fun t => t.status = "rejected")).length }

/-- Body of `POST /api/articles` before validation. -/
structure ArticleBody where
  headline : Option String
  link : Option String
deriving Repr, DecidableEq

/-- Schema `articleSchema` of `validation.js`: `headline` required, trimmed,
5 ≤ len ≤ 500; `link` required, trimmed, and a URI — the Joi `uri()`
library check is abstracted as the parameter `uriOk`. -/
def validArticle (uriOk : String → Bool) (b : ArticleBody) : Bool :=
  (match b.headline with
   | none => false
   | some v => 5 ≤ (jsTrim v).length && (jsTrim v).length ≤ 500)
  && (match b.link with
      | none => false
      | some v => uriOk (jsTrim v))

/-- Route `POST /api/articles` (`routes/articles.js`): validate, reject with
409 when `SELECT id FROM articles WHERE link = ?` finds a row, else
insert and re-fetch by `lastID`. -/
def createArticle (uriOk : String → Bool) (b : ArticleBody) (now : Nat)
    (s : Store) : Resp (Option ArticleRow) × Store :=
  if !validArticle uriOk b then (.err 400, s)
  else
    let link := jsTrim (b.link.getD "")
    match s.articles.find? (fun a => a.link = link) with
    | some _ => (.err 409, s)
    | none =>
      let row : ArticleRow :=
        { id := s.nextArticleId
          headline := jsTrim (b.headline.getD "")
          link := link
          created_at := now }
      let s' : Store := { s with
        articles := s.articles ++ [row]
        nextArticleId := s.nextArticleId + 1 }
      (.ok 201 (s'.articles.find? (fun a => a.id = row.id)), s')

/-- Body of `POST/PUT /api/checklists` before validation. -/
structure ChecklistBody where
  title : Option String
  description : Option String
  theme : Option String
deriving Repr, DecidableEq

/-- The `valid(...)` theme list of `checklistSchema`. -/
def checklistThemeEnum : List String :=
  ["blue", "green", "purple", "red", "yellow", "indigo"]

/-- Output of `checklistSchema` validation: required `title` trimmed
with 3 ≤ len ≤ 255; `description` is `Joi.string().max(1000).trim()
.default('')` — the default `''` applies only when the key is absent,
while a supplied description is trimmed and must be non-empty
(`Joi.string()` rejects `''`) and at most 1000 long; `theme` must be in
the enum when supplied, defaulting to `'blue'` when absent.  `none` is
the 400 response. -/
def validateChecklistBody (b : ChecklistBody) : Option ChecklistBody :=
  match b.title with
  | none => none
  | some t =>
    if !(3 ≤ (jsTrim t).length && (jsTrim t).length ≤ 255) then none
    else
      match b.description with
      | none =>
        let th := b.theme.getD "blue"
        if !(checklistThemeEnum.contains th) then none
        else some { title := some (jsTrim t), description := some "", theme := some th }
      | some dsc =>
        let d := jsTrim dsc
        if !(1 ≤ d.length && d.length ≤ 1000) then none
        else
          let th := b.theme.getD "blue"
          if !(checklistThemeEnum.contains th) then none
          else some { title := some (jsTrim t), description := some d, theme := some th }

/-- Route `PUT /api/checklists/:id` (`routes/checklists.js`): validates the
body against the CREATE schema (`validateChecklist`), 404s when the row
is absent, then runs `UPDATE checklists SET title = ?, description = ?,
theme = ? WHERE id = ?` with the validated (defaulted) values; the
`update_checklists_timestamp` trigger stamps `updated_at`. -/
def updateChecklist (id : String) (b : ChecklistBody) (now : Nat) (s : Store) :
    Resp (Option ChecklistRow) × Store :=
  match validateChecklistBody b with
  | none => (.err 400, s)
  | some v =>
    match s.checklists.find? (fun c => c.id = id) with
    | none => (.err 404, s)
    | some _ =>
      let s' : Store := { s with
        checklists := s.checklists.map (fun c =>
          if c.id = id then
            { c with
              title := jsTrim (v.title.getD "")
              description := v.description.getD ""
              theme := v.theme.getD ""
              updated_at := now }
          else c) }
      (.ok 200 (s'.checklists.find? (fun c => c.id = id)), s')

/-- Error raised inside a `database.transaction` body. -/
inductive TxErr where
  | engineFault
  | notFound
deriving Repr, DecidableEq

/-- Method `database.transaction` (`database.js`): BEGIN, run the body, COMMIT
on normal return; on any failure ROLLBACK — the store reverts to its
pre-transaction state — and re-throw. -/
def Database.transaction (s : Store) (body : Store → Except TxErr Store) :
    Except TxErr Store × Store :=
  match body s with
  | .ok s' => (.ok s', s')
  | .error e => (.error e, s)

/-- The transaction body of `DELETE /api/checklists/:id`: delete the
subtasks of the checklist's tasks (sub-select on `checklist_tasks`),
delete the tasks, delete the checklist, and throw `Checklist not found`
when the final delete reports zero changes.  `f1 f2 f3` inject an
engine fault into the first, second or third statement, modelling a
rejected `database.run`. -/
def deleteChecklistBody (f1 f2 f3 : Bool) (id : String) (s : Store) :
    Except TxErr Store :=
  if f1 then .error .engineFault
  else
    let taskIds := (s.checklistTasks.filter (fun t => t.checklist_id = id)).map
      (fun t => t.id)
    let s1 : Store := { s with
      subtasks := s.subtasks.filter (fun st => !(taskIds.contains st.task_id)) }
    if f2 then .error .engineFault
    else
      let s2 : Store := { s1 with
        checklistTasks := s1.checklistTasks.filter (fun t => !(t.checklist_id = id)) }
      if f3 then .error .engineFault
      else
        let changes := (s2.checklists.filter (fun c => c.id = id)).length
        let s3 : Store := { s2 with
          checklists := s2.checklists.filter (fun c => !(c.id = id)) }
        if changes = 0 then .error .notFound else .ok s3

/-- Route `DELETE /api/checklists/:id` (`routes/checklists.js`): run the
cascade inside one transaction; the `Checklist not found` throw maps to
404, any other failure to 500, and both leave the rolled-back store. -/
def deleteChecklist (f1 f2 f3 : Bool) (id : String) (s : Store) :
    Resp Unit × Store :=
  match Database.transaction s (deleteChecklistBody f1 f2 f3 id) with
  | (.ok _, s') => (.ok 200 (), s')
  | (.error .notFound, s') => (.err 404, s')
  | (.error .engineFault, s') => (.err 500, s')

/-- Body of `POST /api/projects` before validation. -/
structure ProjectBody where
  name : Option String
  description : Option String
  start_date : Option Nat
  end_date : Option Nat
  status : Option String
  priority : Option String
  manager : Option String
  budget : Option Rat
deriving Repr, DecidableEq

/-- The project status CHECK enum. -/
def projectStatusEnum : List String :=
  ["planning", "active", "on-hold", "completed", "cancelled"]

/-- The project priority CHECK enum. -/
def projectPriorityEnum : List String := ["low", "medium", "high", "urgent"]

/-- Modelled from the spec: `validateProject` is imported by
`routes/projects.js` from `middleware/validation.js` but its definition
is not in the sources.  Per the spec, the validator checks string
length bounds (`name` ≥ 3), enum membership for `status`/`priority`
(with the schema defaults `planning`/`medium`), date presence, and the
cross-field ordering rule: a project's `end_date` must not precede its
`start_date`.  `none` is the 400 response. -/
def validateProjectBody (b : ProjectBody) : Option ProjectBody :=
  match b.name with
  | none => none
  | some n =>
    if !(3 ≤ (jsTrim n).length && (jsTrim n).length ≤ 255) then none
    else
      match b.start_date, b.end_date with
      | some sd, some ed =>
        if ed < sd then none
        else
          let st := b.status.getD "planning"
          let pr := b.priority.getD "medium"
          if !(projectStatusEnum.contains st && projectPriorityEnum.contains pr)
          then none
          else some { b with
            name := some (jsTrim n), status := some st, priority := some pr }
      | _, _ => none

/-- Route `POST /api/projects` (`routes/projects.js`): validate (the
validation middleware runs before the handler, so a failing payload
never reaches the store), insert all eight columns, re-fetch by
`lastID`. -/
def createProject (b : ProjectBody) (now : Nat) (s : Store) :
    Resp (Option ProjectRow) × Store :=
  match validateProjectBody b with
  | none => (.err 400, s)
  | some v =>
    let row : ProjectRow :=
      { id := s.nextProjectId
        name := jsTrim (v.name.getD "")
        description := v.description.getD ""
        start_date := v.start_date
        end_date := v.end_date
        status := v.status.getD ""
        priority := v.priority.getD ""
        manager := v.manager
        budget := v.budget
        created_at := now
        updated_at := now }
    let s' : Store := { s with
      projects := s.projects ++ [row]
      nextProjectId := s.nextProjectId + 1 }
    (.ok 201 (s'.projects.find? (fun p => p.id = row.id)), s')

/-- The transaction body of `DELETE /api/projects/:id`: delete the
project's resource allocations, milestones and `project_tasks` link
rows, then the project itself; zero changes on the final delete throws
`Project not found`.  The `tasks` table is never touched. -/
def deleteProjectBody (id : Nat) (s : Store) : Except TxErr Store :=
  let s1 : Store := { s with
    resources := s.resources.filter (fun r => !(r.project_id = id)) }
  let s2 : Store := { s1 with
    milestones := s1.milestones.filter (fun m => !(m.project_id = id)) }
  let s3 : Store := { s2 with
    projectTasks := s2.projectTasks.filter (fun r => !(r.project_id = id)) }
  let changes := (s3.projects.filter (fun p => p.id = id)).length
  let s4 : Store := { s3 with projects := s3.projects.filter (fun p => !(p.id = id)) }
  if changes = 0 then .error .notFound else .ok s4

/-- Route `DELETE /api/projects/:id` (`routes/projects.js`): cascade in one
transaction, 404 on `Project not found`. -/
def deleteProject (id : Nat) (s : Store) : Resp Unit × Store :=
  match Database.transaction s (deleteProjectBody id) with
  | (.ok _, s') => (.ok 200 (), s')
  | (.error _, s') => (.err 404, s')

/-- Route `POST /api/projects/:id/tasks` (`routes/projects.js`): 404 when the
project or the task is absent, 409 when the `(project_id, task_id)`
link row already exists, else insert one link row. -/
def linkTask (projectId taskId : Nat) (s : Store) : Resp Unit × Store :=
  match s.projects.find? (fun p => p.id = projectId) with
  | none => (.err 404, s)
  | some _ =>
    match s.tasks.find? (fun t => t.id = taskId) with
    | none => (.err 404, s)
    | some _ =>
      match s.projectTasks.find?
          (fun r => r.project_id = projectId && r.task_id = taskId) with
      | some _ => (.err 409, s)
      | none =>
        let row : ProjectTaskRow :=
          { id := s.nextProjectTaskId, project_id := projectId, task_id := taskId }
        (.ok 201 (), { s with projectTasks := s.projectTasks ++ [row],
                              nextProjectTaskId := s.nextProjectTaskId + 1 })

/-- Route `DELETE /api/projects/:id/tasks/:taskId` (`routes/projects.js`):
`DELETE FROM project_tasks WHERE project_id = ? AND task_id = ?`;
`changes === 0` maps to 404.  Only the join table is touched. -/
def unlinkTask (projectId taskId : Nat) (s : Store) : Resp Unit × Store :=
  let changes := (s.projectTasks.filter
    (fun r => r.project_id = projectId && r.task_id = taskId)).length
  let s' : Store := { s with
    projectTasks := s.projectTasks.filter
      (fun r => !(r.project_id = projectId && r.task_id = taskId)) }
  if changes = 0 then (.err 404, s') else (.ok 200 (), s')

/-- Body of `POST /api/daily-tasks/:id/progress` (`req.body` raw — this
route has no Joi schema, only in-handler checks). -/
structure ProgressBody where
  progress_date : Option Nat
  hours_spent : Option Rat
  progress_percentage : Option Nat
  notes : Option String
deriving Repr, DecidableEq

/-- Route `POST /api/daily-tasks/:id/progress` (`routes/daily-tasks.js`): 404
when the daily task is absent, 400 when `progress_date` is missing;
this route has no Joi schema, so the table's
`CHECK(progress_percentage >= 0 AND progress_percentage <= 100)` is
live — an inserted percentage above 100 makes the INSERT raise a
constraint error that the route's catch-all maps to 500 with nothing
inserted (the lower bound holds by the `Nat` embedding).  Otherwise
insert the progress row (`hours_spent || 0` etc.), recompute
`SUM(hours_spent)` over the task's progress rows and write it into the
task's `actual_hours`, then return the inserted row. -/
def addProgress (taskId : Nat) (b : ProgressBody) (s : Store) :
    Resp (Option DailyTaskProgressRow) × Store :=
  match s.dailyTasks.find? (fun t => t.id = taskId) with
  | none => (.err 404, s)
  | some _ =>
    match b.progress_date with
    | none => (.err 400, s)
    | some d =>
      if !(b.progress_percentage.getD 0 ≤ 100) then (.err 500, s)
      else
      let row : DailyTaskProgressRow :=
        { id := s.nextProgressId
          daily_task_id := taskId
          progress_date := d
          hours_spent := b.hours_spent.getD 0
          progress_percentage := b.progress_percentage.getD 0
          notes := b.notes.getD "" }
      let s1 : Store := { s with
        dailyTaskProgress := s.dailyTaskProgress ++ [row]
        nextProgressId := s.nextProgressId + 1 }
      let total := ((s1.dailyTaskProgress.filter
        (fun p => p.daily_task_id = taskId)).map (fun p => p.hours_spent)).sum
      let s2 : Store := { s1 with dailyTasks := s1.dailyTasks.map (fun t =>
        if t.id = taskId then { t with actual_hours := total } else t) }
      (.ok 201 (s2.dailyTaskProgress.find? (fun p => p.id = row.id)), s2)

/-- The empty freshly-initialized store: every table empty, every
AUTOINCREMENT counter at its SQLite starting value 1. -/
def Store.empty : Store :=
  { tasks := [], nextTaskId := 1
    articles := [], nextArticleId := 1
    checklists := [], checklistTasks := [], subtasks := []
    projects := [], nextProjectId := 1
    projectTasks := [], nextProjectTaskId := 1
    milestones := [], resources := []
    dailyTasks := [], nextDailyTaskId := 1
    dailyTaskProgress := [], nextProgressId := 1 }

/-- A field name of the `tasks` table, as it may appear as a key of an
update payload. -/
inductive TaskField where
  | taskName
  | creator
  | status
  | approver
  | timer
  | completed
deriving Repr, DecidableEq

/-- A JSON field value of an update payload. -/
inductive FieldVal where
  | str (v : String)
  | boolean (v : Bool)
deriving Repr, DecidableEq

/-- The Task update allow-list: the keys `taskUpdateSchema` recognizes. -/
def taskAllowList : List TaskField := [.status, .approver, .timer, .completed]

/-- Assign one supplied field of an update mapping to a task row.  A
type-mismatched pair (e.g. a boolean for `status`) cannot arise from a
payload that passed the field validators and is left as a no-op. -/
def setTaskField (t : TaskRow) : TaskField × FieldVal → TaskRow
  | (.status, .str v) => { t with status := v }
  | (.approver, .str v) => { t with approver := some v }
  | (.timer, .str v) => { t with timer := some v }
  | (.completed, .boolean v) => { t with completed := v }
  | _ => t

/-- Modelled from the spec (§4.4 "Generic partial update", §4.3, §4.1):
the generic update primitive accepts a mapping of field→new value,
restricts it to the per-entity allow-list, rejects a mapping with zero
recognized fields, 404s if the target row does not exist, applies a
single SET clause covering exactly the supplied allowed fields (fields
not supplied keep their stored values), stamps the modification
timestamp, and re-fetches and returns the updated row.  This is the
specification-side definition for the Task entity, to be compared with
`updateTask` taken from the source. -/
def specTaskUpdate (id : Nat) (ps : List (TaskField × FieldVal)) (now : Nat)
    (s : Store) : Resp (Option TaskRow) × Store :=
  let qs := ps.filter (fun q => taskAllowList.contains q.1)
  if qs.length = 0 then (.err 400, s)
  else
    match s.tasks.find? (fun t => t.id = id) with
    | none => (.err 404, s)
    | some _ =>
      let s' : Store := { s with tasks := s.tasks.map (fun t =>
        if t.id = id then { qs.foldl setTaskField t with updated_at := now }
        else t) }
      (.ok 200 (s'.tasks.find? (fun t => t.id = id)), s')

/-- The update payload of `PUT /api/tasks/:id` read as the field→value
mapping the spec's generic update primitive consumes. -/
def TaskUpdateBody.pairs (b : TaskUpdateBody) : List (TaskField × FieldVal) :=
  (match b.status with
   | some v => [(TaskField.status, FieldVal.str v)]
   | none => [])
  ++ (match b.approver with
      | some v => [(TaskField.approver, FieldVal.str v)]
      | none => [])
  ++ (match b.timer with
      | some v => [(TaskField.timer, FieldVal.str v)]
      | none => [])
  ++ (match b.completed with
      | some v => [(TaskField.completed, FieldVal.boolean v)]
      | none => [])

/-- Concrete fixture: a store holding one task of each status, used to
instantiate the statistics invariant. -/
def statsFixture : Store :=
  { Store.empty with tasks :=
      [⟨1, "Write report", "Ann", "pending", none, none, false, 0, 0⟩,
       ⟨2, "Review code", "Bob", "approved", none, none, true, 0, 0⟩,
       ⟨3, "Ship build", "Cleo", "rejected", none, none, false, 0, 0⟩] }

/-- Concrete fixture: a store holding one daily task with no progress
rows yet. -/
def dailyFixture : Store :=
  { Store.empty with dailyTasks :=
      [⟨1, "Demo prep", "", "Ann", "medium", "pending", 10, 4, 0, 0, 0⟩] }

/-- Concrete fixture: a checklist with stored description and theme,
plus two tasks with three subtasks (and one unrelated checklist). -/
def checklistFixture : Store :=
  { Store.empty with
    checklists := [⟨"c1", "Groceries", "weekly run", "red", 0, 0⟩,
                   ⟨"c2", "Other list", "keep me", "green", 0, 0⟩]
    checklistTasks := [⟨"t1", "c1", "fruit", "Medium", false, 0⟩,
                       ⟨"t2", "c1", "bread", "Low", false, 0⟩,
                       ⟨"t3", "c2", "misc", "High", false, 0⟩]
    subtasks := [⟨"u1", "t1", "apples", false, 0⟩,
                 ⟨"u2", "t1", "pears", false, 0⟩,
                 ⟨"u3", "t2", "rye", false, 0⟩,
                 ⟨"u4", "t3", "x1", false, 0⟩] }

/-- Concrete fixture: one project, one task, one link row between them,
plus a milestone and a resource allocation. -/
def projectFixture : Store :=
  { Store.empty with
    tasks := [⟨7, "Linked task", "Ann", "pending", none, none, false, 0, 0⟩]
    nextTaskId := 8
    projects := [⟨3, "Launch", "", some 1, some 9, "active", "high", none, none, 0, 0⟩]
    nextProjectId := 4
    projectTasks := [⟨1, 3, 7⟩]
    nextProjectTaskId := 2
    milestones := [⟨1, 3, "Beta out", "", some 5, false⟩]
    resources := [⟨1, 3, "Dev A", "engineer", 40, none, none, 0⟩] }

/-- Concrete fixture: one plain task row, for the update claims. -/
def taskFixture : Store :=
  { Store.empty with
    tasks := [⟨1, "Write report", "Ann", "pending", none, none, false, 0, 0⟩]
    nextTaskId := 2 }

section Helpers

variable {α β : Type}

/-- Deleting the rows matching `p` keeps `length − countOf p` rows: the
two complementary filters partition the list. -/
theorem length_filter_not_add (p : α → Bool) (l : List α) :
    (l.filter (fun a => !(p a))).length + (l.filter p).length = l.length := by
  induction l with
  | nil => simp
  | cons a t ih =>
    by_cases h : p a = true <;>
      simp [List.filter_cons, h, Nat.add_comm, Nat.add_assoc, Nat.add_left_comm, ← ih]

/-- A list map that fixes every element is the identity. -/
theorem map_eq_self_of (l : List α) (f : α → α) (h : ∀ a ∈ l, f a = a) :
    l.map f = l := by
  induction l with
  | nil => rfl
  | cons a t ih =>
    simp only [List.map_cons, h a (List.mem_cons_self a t)]
    rw [ih (fun x hx => h x (List.mem_cons_of_mem a hx))]

/-- A `find?` hit guarantees the matching filter is non-empty. -/
theorem length_filter_pos_of_find? {p : α → Bool} {l : List α} {a : α}
    (h : l.find? p = some a) : 0 < (l.filter p).length := by
  have hm := List.mem_of_find?_eq_some h
  have hp := List.find?_some h
  have : a ∈ l.filter p := List.mem_filter.mpr ⟨hm, hp⟩
  exact List.length_pos.mpr (fun hnil => by simp [hnil] at this)

/-- Partition of a task list into the three status classes, available
whenever every status is in the CHECK-constraint enum. -/
theorem length_eq_status_partition (l : List TaskRow)
    (h : ∀ t ∈ l, t.status = "pending" ∨ t.status = "approved" ∨
      t.status = "rejected") :
    l.length = (l.filter (fun t => t.status = "pending")).length
      + (l.filter (fun t => t.status = "approved")).length
      + (l.filter (fun t => t.status = "rejected")).length := by
  induction l with
  | nil => simp
  | cons a t ih =>
    have ha := h a (List.mem_cons_self a t)
    have ht := fun x hx => h x (List.mem_cons_of_mem a hx)
    rcases ha with ha | ha | ha <;>
      simp [List.filter_cons, ha, ih ht] <;> omega

end Helpers

/-- C10: in every store whose task rows all carry a status from the
schema's CHECK enum {pending, approved, rejected}, the statistics
summary satisfies `total = pending + approved + rejected` and
`completed ≤ total`. -/
theorem taskStats_partition_invariant (s : Store)
    (h : ∀ t ∈ s.tasks, t.status = "pending" ∨ t.status = "approved" ∨
      t.status = "rejected") :
    (taskStats s).total
        = (taskStats s).pending + (taskStats s).approved + (taskStats s).rejected
      ∧ (taskStats s).completed ≤ (taskStats s).total := by
  constructor
  · exact length_eq_status_partition s.tasks h
  · exact List.length_filter_le _ _

/-- Witness for C10 on a concrete three-task store. -/
theorem taskStats_partition_invariant_witness :
    (∀ t ∈ statsFixture.tasks,
      t.status = "pending" ∨ t.status = "approved" ∨ t.status = "rejected")
    ∧ (taskStats statsFixture).total
        = (taskStats statsFixture).pending + (taskStats statsFixture).approved
          + (taskStats statsFixture).rejected
    ∧ (taskStats statsFixture).completed ≤ (taskStats statsFixture).total := by
  exact ⟨by decide,
    (taskStats_partition_invariant statsFixture (by decide)).1,
    (taskStats_partition_invariant statsFixture (by decide)).2⟩

/-- Behavior of the checklist update route once validation has
succeeded with output `v` and the target row is `c₀`: every row with
the target id is overwritten with the validated title, description and
theme (the trigger stamping `updated_at`), and the re-fetched patched
row is returned with 200. -/
theorem updateChecklist_spec (s : Store) (id : String) (b v : ChecklistBody)
    (now : Nat) (c₀ : ChecklistRow)
    (hval : validateChecklistBody b = some v)
    (hc₀ : s.checklists.find? (fun c => c.id = id) = some c₀) :
    updateChecklist id b now s
      = (.ok 200 (some { c₀ with
            title := jsTrim (v.title.getD "")
            description := v.description.getD ""
            theme := v.theme.getD ""
            updated_at := now }),
         { s with checklists := s.checklists.map (fun c =>
             if c.id = id then
               { c with
                 title := jsTrim (v.title.getD "")
                 description := v.description.getD ""
                 theme := v.theme.getD ""
                 updated_at := now }
             else c) }) := by
  have hcid : c₀.id = id := by simpa using List.find?_some hc₀
  have hpg : ((fun (c : ChecklistRow) => decide (c.id = id)) ∘
      (fun c => if c.id = id then
        { c with
          title := jsTrim (v.title.getD "")
          description := v.description.getD ""
          theme := v.theme.getD ""
          updated_at := now }
       else c))
      = (fun (c : ChecklistRow) => decide (c.id = id)) := by
    funext c
    by_cases h : c.id = id <;> simp [h]
  simp only [updateChecklist, hval, hc₀]
  rw [List.find?_map, hpg, hc₀]
  simp [hcid]

/-- The create-schema defaults of `checklistSchema`: whenever validation
succeeds, an omitted description validates to `''` and an omitted theme
to `'blue'`. -/
theorem validateChecklistBody_defaults {b v : ChecklistBody}
    (hval : validateChecklistBody b = some v) :
    (b.description = none → v.description = some "")
      ∧ (b.theme = none → v.theme = some "blue") := by
  obtain ⟨bt, bd, bth⟩ := b
  cases bt <;> cases bd <;> cases bth <;>
    simp only [validateChecklistBody, Option.getD_none, Option.getD_some]
      at hval <;>
    (try split at hval) <;> (try split at hval) <;> (try split at hval) <;>
    (try (cases hval)) <;> simp_all

/-- C9: the checklist update endpoint validates against the CREATE
schema, whose defaults are applied to omitted fields; for every update
whose (otherwise valid) payload omits `description` and/or `theme`, the
stored row's description is overwritten with `''` and/or its theme with
`'blue'`, destroying whatever values were stored before. -/
theorem checklistUpdate_applies_create_defaults (s : Store) (id : String)
    (b v : ChecklistBody) (now : Nat)
    (hrow : (s.checklists.find? (fun c => c.id = id)).isSome)
    (hval : validateChecklistBody b = some v)
    (homit : b.description = none ∨ b.theme = none) :
    (∀ c ∈ (updateChecklist id b now s).2.checklists, c.id = id →
        (b.description = none → c.description = "")
        ∧ (b.theme = none → c.theme = "blue"))
      ∧ ∃ c, (updateChecklist id b now s).1 = .ok 200 (some c)
          ∧ (b.description = none → c.description = "")
          ∧ (b.theme = none → c.theme = "blue") := by
  obtain ⟨c₀, hc₀⟩ := Option.isSome_iff_exists.mp hrow
  have hdef := validateChecklistBody_defaults hval
  have hspec := updateChecklist_spec s id b v now c₀ hval hc₀
  have hd : b.description = none → v.description.getD "" = "" := by
    intro hdd
    rw [hdef.1 hdd]
    rfl
  have hth : b.theme = none → v.theme.getD "" = "blue" := by
    intro htt
    rw [hdef.2 htt]
    rfl
  constructor
  · intro c hc hcid
    simp only [hspec, List.mem_map] at hc
    obtain ⟨c1, _, rfl⟩ := hc
    by_cases h : c1.id = id
    · constructor
      · intro hdd
        simp [h, hd hdd]
      · intro htt
        simp [h, hth htt]
    · exact absurd (by simpa [h] using hcid) h
  · refine ⟨{ c₀ with
        title := jsTrim (v.title.getD "")
        description := v.description.getD ""
        theme := v.theme.getD ""
        updated_at := now }, ?_, ?_, ?_⟩
    · rw [hspec]
    · intro hdd
      simpa using hd hdd
    · intro htt
      simpa using hth htt

/-- Witness for C9: a payload omitting only `description` (title
`"New title"`, theme `"red"` supplied) destroys the fixture checklist's
stored description `"weekly run"`, overwriting it with `''`. -/
theorem checklistUpdate_applies_create_defaults_witness :
    ((checklistFixture.checklists.find? (fun c => c.id = "c1")).isSome
      ∧ validateChecklistBody ⟨some "New title", none, some "red"⟩
          = some ⟨some (jsTrim "New title"), some "", some "red"⟩
      ∧ ((⟨some "New title", none, some "red"⟩ : ChecklistBody).description
            = none
          ∨ (⟨some "New title", none, some "red"⟩ : ChecklistBody).theme
            = none))
    ∧ (∀ c ∈ (updateChecklist "c1" ⟨some "New title", none, some "red"⟩ 1
          checklistFixture).2.checklists,
        c.id = "c1" →
          ((⟨some "New title", none, some "red"⟩ : ChecklistBody).description
              = none → c.description = "")
          ∧ ((⟨some "New title", none, some "red"⟩ : ChecklistBody).theme
              = none → c.theme = "blue")) := by
  exact ⟨⟨by decide, by decide, Or.inl rfl⟩,
    (checklistUpdate_applies_create_defaults checklistFixture "c1"
      ⟨some "New title", none, some "red"⟩
      ⟨some (jsTrim "New title"), some "", some "red"⟩ 1
      (by decide) (by decide) (Or.inl rfl)).1⟩

/-- C6: creating two articles with the same link: the first insert
succeeds and appends exactly one row; the second create fails with 409
and leaves the whole store — in particular the first article's row —
unchanged. -/
theorem article_duplicate_link_conflict (uriOk : String → Bool) (s : Store)
    (b1 b2 : ArticleBody) (n1 n2 : Nat)
    (hv1 : validArticle uriOk b1 = true) (hv2 : validArticle uriOk b2 = true)
    (hlink : b2.link = b1.link)
    (hfresh : ∀ a ∈ s.articles, ¬a.link = jsTrim (b1.link.getD "")) :
    (createArticle uriOk b1 n1 s).2.articles
        = s.articles ++ [⟨s.nextArticleId, jsTrim (b1.headline.getD ""),
            jsTrim (b1.link.getD ""), n1⟩]
      ∧ createArticle uriOk b2 n2 (createArticle uriOk b1 n1 s).2
          = (.err 409, (createArticle uriOk b1 n1 s).2) := by
  have hnone : s.articles.find?
      (fun a => a.link = jsTrim (b1.link.getD "")) = none :=
    List.find?_eq_none.mpr (by simpa using hfresh)
  have hr1 : (createArticle uriOk b1 n1 s).2.articles
      = s.articles ++ [⟨s.nextArticleId, jsTrim (b1.headline.getD ""),
          jsTrim (b1.link.getD ""), n1⟩] := by
    simp [createArticle, hv1, hnone]
  refine ⟨hr1, ?_⟩
  have hfind2 : (createArticle uriOk b1 n1 s).2.articles.find?
      (fun a => a.link = jsTrim (b2.link.getD "")) =
      some ⟨s.nextArticleId, jsTrim (b1.headline.getD ""),
        jsTrim (b1.link.getD ""), n1⟩ := by
    rw [hr1, hlink, List.find?_append]
    rw [hnone]
    simp
  have hs1 : (createArticle uriOk b1 n1 s).2 = { s with
      articles := s.articles ++ [⟨s.nextArticleId, jsTrim (b1.headline.getD ""),
        jsTrim (b1.link.getD ""), n1⟩]
      nextArticleId := s.nextArticleId + 1 } := by
    simp [createArticle, hv1, hnone]
  rw [hs1] at hfind2 ⊢
  simp only [createArticle, hv2, Bool.not_true, Bool.false_eq_true, if_false]
  rw [show ({ s with
      articles := s.articles ++ [⟨s.nextArticleId, jsTrim (b1.headline.getD ""),
        jsTrim (b1.link.getD ""), n1⟩]
      nextArticleId := s.nextArticleId + 1 } : Store).articles.find?
      (fun a => a.link = jsTrim (b2.link.getD "")) =
      some ⟨s.nextArticleId, jsTrim (b1.headline.getD ""),
        jsTrim (b1.link.getD ""), n1⟩ from hfind2]

/-- Witness for C6: two creates with the same link on the empty store. -/
theorem article_duplicate_link_conflict_witness :
    (validArticle (fun _ => true) ⟨some "Big headline", some "http://x.y"⟩ = true
      ∧ validArticle (fun _ => true) ⟨some "Other headline", some "http://x.y"⟩ = true
      ∧ (∀ a ∈ Store.empty.articles, ¬a.link = jsTrim "http://x.y"))
    ∧ (createArticle (fun _ => true) ⟨some "Other headline", some "http://x.y"⟩ 1
        (createArticle (fun _ => true) ⟨some "Big headline", some "http://x.y"⟩ 0
          Store.empty).2).1 = .err 409 := by
  refine ⟨⟨by decide, by decide, by simp [Store.empty]⟩, ?_⟩
  have h := (article_duplicate_link_conflict (fun _ => true) Store.empty
    ⟨some "Big headline", some "http://x.y"⟩
    ⟨some "Other headline", some "http://x.y"⟩ 0 1
    (by decide) (by decide) rfl (by simp [Store.empty])).2
  rw [h]

/-- C2: for an existing daily task, a progress append whose body
supplies a `progress_date` and whose inserted `progress_percentage`
satisfies the table's CHECK bound (≤ 100, so the INSERT goes through)
succeeds with 201 and leaves the task's `actual_hours` equal to the sum
of `hours_spent` over all of that task's progress rows in the resulting
store. -/
theorem addProgress_recomputes_actual_hours (s : Store) (tid : Nat)
    (b : ProgressBody) (d : Nat)
    (htask : (s.dailyTasks.find? (fun t => t.id = tid)).isSome)
    (hdate : b.progress_date = some d)
    (hpct : b.progress_percentage.getD 0 ≤ 100) :
    (∃ row, (addProgress tid b s).1 = .ok 201 (some row))
      ∧ ∀ t ∈ (addProgress tid b s).2.dailyTasks, t.id = tid →
          t.actual_hours = (((addProgress tid b s).2.dailyTaskProgress.filter
            (fun p => p.daily_task_id = tid)).map (fun p => p.hours_spent)).sum := by
  obtain ⟨t₀, ht₀⟩ := Option.isSome_iff_exists.mp htask
  have hpc : (!(b.progress_percentage.getD 0 ≤ 100)) = false := by
    simp [hpct]
  constructor
  · simp only [addProgress, ht₀, hdate, hpc, Bool.false_eq_true, if_false]
    rw [List.find?_append]
    rcases hfa : s.dailyTaskProgress.find?
        (fun p => p.id = s.nextProgressId) with _ | row
    · refine ⟨⟨s.nextProgressId, tid, d, b.hours_spent.getD 0,
        b.progress_percentage.getD 0, b.notes.getD ""⟩, ?_⟩
      rw [hfa]
      simp
    · refine ⟨row, ?_⟩
      rw [hfa]
      simp
  · intro t ht htid
    simp only [addProgress, ht₀, hdate, hpc, Bool.false_eq_true, if_false,
      List.mem_map] at ht ⊢
    obtain ⟨t1, _, rfl⟩ := ht
    by_cases h : t1.id = tid
    · simp [h]
    · exact absurd (by simpa [h] using htid) h

/-- Witness for C2: appending `hours_spent = 3` then `hours_spent = 2`
to a fresh daily task leaves `actual_hours = 5`. -/
theorem addProgress_recomputes_actual_hours_witness :
    ((((addProgress 1 ⟨some 10, some 3, none, none⟩ dailyFixture).2).dailyTasks.find?
        (fun t => t.id = 1)).isSome
      ∧ (⟨some 11, some 2, none, none⟩ : ProgressBody).progress_date = some 11
      ∧ (⟨some 11, some 2, none, none⟩ :
          ProgressBody).progress_percentage.getD 0 ≤ 100)
    ∧ (∀ t ∈ (addProgress 1 ⟨some 11, some 2, none, none⟩
          (addProgress 1 ⟨some 10, some 3, none, none⟩ dailyFixture).2).2.dailyTasks,
        t.id = 1 → t.actual_hours = 5) := by
  have hs1 : (addProgress 1 ⟨some 10, some 3, none, none⟩ dailyFixture).2
      = { dailyFixture with
          dailyTasks := [⟨1, "Demo prep", "", "Ann", "medium", "pending", 10, 4, 3, 0, 0⟩]
          dailyTaskProgress := [⟨1, 1, 10, 3, 0, ""⟩]
          nextProgressId := 2 } := by
    simp [addProgress, dailyFixture, Store.empty]
  refine ⟨⟨by rw [hs1]; decide, rfl, by decide⟩, ?_⟩
  intro t ht htid
  have h := (addProgress_recomputes_actual_hours
    (addProgress 1 ⟨some 10, some 3, none, none⟩ dailyFixture).2 1
    ⟨some 11, some 2, none, none⟩ 11 (by rw [hs1]; decide) rfl
    (by decide)).2 t ht htid
  rw [h, hs1]
  norm_num [addProgress, dailyFixture, Store.empty]

/-- C3: a task update payload with zero allow-listed fields is rejected
with 400 and the store is unchanged; the payload `{status:"approved"}`
on an existing task succeeds with 200 and changes only the status
column (plus the trigger-stamped `updated_at`), leaving name, creator
and every other column unchanged. -/
theorem taskUpdate_min_fields_and_frame (s : Store) (id now : Nat) (t : TaskRow)
    (hfind : s.tasks.find? (fun u => u.id = id) = some t) :
    updateTask id ⟨none, none, none, none⟩ now s = (.err 400, s)
      ∧ updateTask id ⟨some "approved", none, none, none⟩ now s
        = (.ok 200 (some { t with status := "approved", updated_at := now }),
           { s with tasks := s.tasks.map (fun u =>
               if u.id = id then { u with status := "approved", updated_at := now }
               else u) }) := by
  constructor
  · simp [updateTask, validTaskUpdate]
  · have hval : validTaskUpdate ⟨some "approved", none, none, none⟩ = true := by
      decide
    have htid : t.id = id := by simpa using List.find?_some hfind
    have hpg : ((fun (u : TaskRow) => decide (u.id = id)) ∘
        (fun u => if u.id = id then
          TaskRow.patch ⟨some "approved", none, none, none⟩ now u else u))
        = fun (u : TaskRow) => decide (u.id = id) := by
      funext u
      by_cases h : u.id = id <;> simp [h, TaskRow.patch]
    simp only [updateTask, hval, Bool.not_true, Bool.false_eq_true, if_false,
      hfind]
    rw [List.find?_map, hpg, hfind]
    simp [TaskRow.patch, htid]

/-- Witness for C3 on the one-task fixture. -/
theorem taskUpdate_min_fields_and_frame_witness :
    (taskFixture.tasks.find? (fun u => u.id = 1)
        = some ⟨1, "Write report", "Ann", "pending", none, none, false, 0, 0⟩)
      ∧ updateTask 1 ⟨none, none, none, none⟩ 5 taskFixture
        = (.err 400, taskFixture)
      ∧ (updateTask 1 ⟨some "approved", none, none, none⟩ 5 taskFixture).1
        = .ok 200 (some ⟨1, "Write report", "Ann", "approved", none, none,
            false, 0, 5⟩) := by
  have h := taskUpdate_min_fields_and_frame taskFixture 1 5
    ⟨1, "Write report", "Ann", "pending", none, none, false, 0, 0⟩ (by decide)
  exact ⟨by decide, h.1, by rw [h.2]⟩

/-- C5: a project-create request whose `end_date` precedes its
`start_date` is rejected with 400 and the store is untouched, whatever
the rest of the payload; an otherwise-valid request with `end_date`
equal to `start_date` succeeds with 201 and appends exactly one row. -/
theorem projectCreate_date_ordering (s : Store) (b : ProjectBody)
    (sd ed now : Nat)
    (hsd : b.start_date = some sd) (hed : b.end_date = some ed) :
    (ed < sd → createProject b now s = (.err 400, s))
      ∧ (ed = sd →
          ∀ n, b.name = some n → 3 ≤ (jsTrim n).length →
          (jsTrim n).length ≤ 255 →
          projectStatusEnum.contains (b.status.getD "planning") = true →
          projectPriorityEnum.contains (b.priority.getD "medium") = true →
          (∃ d, (createProject b now s).1 = .ok 201 d)
            ∧ (createProject b now s).2.projects.length
              = s.projects.length + 1) := by
  constructor
  · intro hlt
    have hvb : validateProjectBody b = none := by
      unfold validateProjectBody
      cases hbn : b.name with
      | none => rfl
      | some n =>
        by_cases hlen : (3 ≤ (jsTrim n).length && (jsTrim n).length ≤ 255) = true
        · simp [hlen, hsd, hed, hlt]
        · simp [hlen]
    simp [createProject, hvb]
  · intro heq n hn hn3 hn255 hst hpr
    have hvb : validateProjectBody b = some { b with
        name := some (jsTrim n)
        status := some (b.status.getD "planning")
        priority := some (b.priority.getD "medium") } := by
      unfold validateProjectBody
      rw [hn, hsd, hed]
      have hnlt : ¬ed < sd := by omega
      have hst' : b.status.getD "planning" ∈ projectStatusEnum := by
        simpa using hst
      have hpr' : b.priority.getD "medium" ∈ projectPriorityEnum := by
        simpa using hpr
      simp [hn3, hn255, hnlt, hst', hpr']
    constructor
    · refine ⟨(createProject b now s).2.projects.find?
        (fun p => p.id = s.nextProjectId), ?_⟩
      simp [createProject, hvb]
    · simp [createProject, hvb]

/-- Witness for C5: both halves on the empty store — `end_date = 4 <
start_date = 5` is a 400 no-op, `end_date = start_date = 5` creates a
row. -/
theorem projectCreate_date_ordering_witness :
    ((⟨some "Proj", none, some 5, some 4, none, none, none, none⟩ :
        ProjectBody).start_date = some 5
      ∧ (⟨some "Proj", none, some 5, some 4, none, none, none, none⟩ :
          ProjectBody).end_date = some 4
      ∧ (4 : Nat) < 5)
    ∧ createProject ⟨some "Proj", none, some 5, some 4, none, none, none, none⟩
        0 Store.empty = (.err 400, Store.empty)
    ∧ (createProject ⟨some "Proj", none, some 5, some 5, none, none, none, none⟩
        0 Store.empty).2.projects.length = Store.empty.projects.length + 1 := by
  refine ⟨⟨rfl, rfl, by decide⟩, ?_, ?_⟩
  · exact (projectCreate_date_ordering Store.empty
      ⟨some "Proj", none, some 5, some 4, none, none, none, none⟩ 5 4 0
      rfl rfl).1 (by decide)
  · exact ((projectCreate_date_ordering Store.empty
      ⟨some "Proj", none, some 5, some 5, none, none, none, none⟩ 5 5 0
      rfl rfl).2 rfl "Proj" rfl (by decide) (by decide) (by decide)
      (by decide)).2

/-- C1: deleting an existing checklist removes, inside one transaction,
exactly its N checklist-task rows, the M subtask rows below them and
the checklist row itself (no other table is touched), so N+M+1 rows in
total; and if an engine fault hits any of the three cascade statements,
the transaction rolls back and the store is exactly the original —
zero rows removed. -/
theorem deleteChecklist_cascade_atomic (s : Store) (cid : String)
    (hone : (s.checklists.filter (fun c => c.id = cid)).length = 1) :
    deleteChecklist false false false cid s
      = (.ok 200 (), { s with
          subtasks := s.subtasks.filter (fun st =>
            !(((s.checklistTasks.filter (fun t => t.checklist_id = cid)).map
              (fun t => t.id)).contains st.task_id))
          checklistTasks :=
            s.checklistTasks.filter (fun t => !(t.checklist_id = cid))
          checklists := s.checklists.filter (fun c => !(c.id = cid)) })
    ∧ ((deleteChecklist false false false cid s).2.checklists.length + 1
          = s.checklists.length
        ∧ (deleteChecklist false false false cid s).2.checklistTasks.length
            + (s.checklistTasks.filter (fun t => t.checklist_id = cid)).length
          = s.checklistTasks.length
        ∧ (deleteChecklist false false false cid s).2.subtasks.length
            + (s.subtasks.filter (fun st =>
                ((s.checklistTasks.filter (fun t => t.checklist_id = cid)).map
                  (fun t => t.id)).contains st.task_id)).length
          = s.subtasks.length)
    ∧ (∀ f1 f2 f3 : Bool, (f1 || f2 || f3) = true →
        deleteChecklist f1 f2 f3 cid s = (.err 500, s)) := by
  have hbody : deleteChecklistBody false false false cid s = .ok { s with
      subtasks := s.subtasks.filter (fun st =>
        !(((s.checklistTasks.filter (fun t => t.checklist_id = cid)).map
          (fun t => t.id)).contains st.task_id))
      checklistTasks :=
        s.checklistTasks.filter (fun t => !(t.checklist_id = cid))
      checklists := s.checklists.filter (fun c => !(c.id = cid)) } := by
    simp [deleteChecklistBody, hone]
  have hres : deleteChecklist false false false cid s
      = (.ok 200 (), { s with
          subtasks := s.subtasks.filter (fun st =>
            !(((s.checklistTasks.filter (fun t => t.checklist_id = cid)).map
              (fun t => t.id)).contains st.task_id))
          checklistTasks :=
            s.checklistTasks.filter (fun t => !(t.checklist_id = cid))
          checklists := s.checklists.filter (fun c => !(c.id = cid)) }) := by
    simp [deleteChecklist, Database.transaction, hbody]
  refine ⟨hres, ⟨?_, ?_, ?_⟩, ?_⟩
  · rw [hres]
    have h := length_filter_not_add (fun c => decide (c.id = cid)) s.checklists
    rw [hone] at h
    exact h
  · rw [hres]
    exact length_filter_not_add _ s.checklistTasks
  · rw [hres]
    exact length_filter_not_add _ s.subtasks
  · intro f1 f2 f3 hf
    cases f1 <;> cases f2 <;> cases f3 <;>
      simp_all [deleteChecklist, Database.transaction, deleteChecklistBody]

/-- Witness for C1 on the checklist fixture (N = 2 tasks, M = 3
subtasks): a clean run removes 2 + 3 + 1 rows, a fault injected into
the second statement removes zero. -/
theorem deleteChecklist_cascade_atomic_witness :
    ((checklistFixture.checklists.filter (fun c => c.id = "c1")).length = 1)
    ∧ ((deleteChecklist false false false "c1" checklistFixture).2.checklists.length
          + 1 = checklistFixture.checklists.length
        ∧ (deleteChecklist false false false "c1" checklistFixture).2.checklistTasks.length
            + (checklistFixture.checklistTasks.filter
                (fun t => t.checklist_id = "c1")).length
          = checklistFixture.checklistTasks.length
        ∧ (deleteChecklist false false false "c1" checklistFixture).2.subtasks.length
            + (checklistFixture.subtasks.filter (fun st =>
                ((checklistFixture.checklistTasks.filter
                  (fun t => t.checklist_id = "c1")).map
                  (fun t => t.id)).contains st.task_id)).length
          = checklistFixture.subtasks.length)
    ∧ deleteChecklist false true false "c1" checklistFixture
        = (.err 500, checklistFixture) := by
  refine ⟨by decide, ?_, ?_⟩
  · exact (deleteChecklist_cascade_atomic checklistFixture "c1" (by decide)).2.1
  · exact (deleteChecklist_cascade_atomic checklistFixture "c1" (by decide)).2.2
      false true false (by decide)

/-- C7: task rows are preserved by every project-scoped operation —
deleting a project (whether it exists or not) never touches the
`tasks` table and, on success, removes exactly its resource, milestone
and link rows; linking an already-linked task answers 409 and inserts
nothing; unlinking removes exactly one link row and leaves the `tasks`
table unchanged. -/
theorem projectOps_preserve_tasks (s : Store) (pid tid : Nat)
    (hproj : (s.projects.find? (fun p => p.id = pid)).isSome)
    (htask : (s.tasks.find? (fun t => t.id = tid)).isSome)
    (hlink : (s.projectTasks.filter
      (fun r => r.project_id = pid && r.task_id = tid)).length = 1) :
    (∀ q : Nat, (deleteProject q s).2.tasks = s.tasks)
    ∧ deleteProject pid s
      = (.ok 200 (), { s with
          resources := s.resources.filter (fun r => !(r.project_id = pid))
          milestones := s.milestones.filter (fun m => !(m.project_id = pid))
          projectTasks := s.projectTasks.filter (fun r => !(r.project_id = pid))
          projects := s.projects.filter (fun p => !(p.id = pid)) })
    ∧ linkTask pid tid s = (.err 409, s)
    ∧ unlinkTask pid tid s
      = (.ok 200 (), { s with
          projectTasks := s.projectTasks.filter
            (fun r => !(r.project_id = pid && r.task_id = tid)) })
    ∧ (unlinkTask pid tid s).2.projectTasks.length + 1 = s.projectTasks.length
    ∧ (unlinkTask pid tid s).2.tasks = s.tasks := by
  obtain ⟨p₀, hp₀⟩ := Option.isSome_iff_exists.mp hproj
  obtain ⟨t₀, ht₀⟩ := Option.isSome_iff_exists.mp htask
  have hchanges : (s.projects.filter (fun p => p.id = pid)).length ≠ 0 :=
    Nat.pos_iff_ne_zero.mp (length_filter_pos_of_find? hp₀)
  have hdel : deleteProject pid s = (.ok 200 (), { s with
      resources := s.resources.filter (fun r => !(r.project_id = pid))
      milestones := s.milestones.filter (fun m => !(m.project_id = pid))
      projectTasks := s.projectTasks.filter (fun r => !(r.project_id = pid))
      projects := s.projects.filter (fun p => !(p.id = pid)) }) := by
    simp [deleteProject, Database.transaction, deleteProjectBody, hchanges]
  have hlinkrow : ∃ r, s.projectTasks.find?
      (fun r => r.project_id = pid && r.task_id = tid) = some r := by
    rcases hf : s.projectTasks.find?
        (fun r => r.project_id = pid && r.task_id = tid) with _ | r
    · rw [List.find?_eq_none] at hf
      have : s.projectTasks.filter
          (fun r => r.project_id = pid && r.task_id = tid) = [] := by
        rw [List.filter_eq_nil_iff]
        exact fun a ha => by simpa using hf a ha
      rw [this] at hlink
      simp at hlink
    · exact ⟨r, hf⟩
  obtain ⟨r₀, hr₀⟩ := hlinkrow
  refine ⟨?_, hdel, ?_, ?_, ?_, ?_⟩
  · intro q
    simp only [deleteProject, Database.transaction, deleteProjectBody]
    by_cases h : (s.projects.filter (fun p => p.id = q)).length = 0 <;> simp [h]
  · simp [linkTask, hp₀, ht₀, hr₀]
  · simp [unlinkTask, hlink]
  · have h := length_filter_not_add
      (fun r => r.project_id = pid && r.task_id = tid) s.projectTasks
    rw [hlink] at h
    simpa [unlinkTask, hlink] using h
  · simp [unlinkTask, hlink]

/-- Witness for C7 on the project fixture (project 3 linked to task 7). -/
theorem projectOps_preserve_tasks_witness :
    ((projectFixture.projects.find? (fun p => p.id = 3)).isSome
      ∧ (projectFixture.tasks.find? (fun t => t.id = 7)).isSome
      ∧ (projectFixture.projectTasks.filter
          (fun r => r.project_id = 3 && r.task_id = 7)).length = 1)
    ∧ (deleteProject 3 projectFixture).2.tasks = projectFixture.tasks
    ∧ linkTask 3 7 projectFixture = (.err 409, projectFixture)
    ∧ (unlinkTask 3 7 projectFixture).2.projectTasks.length + 1
        = projectFixture.projectTasks.length
    ∧ (unlinkTask 3 7 projectFixture).2.tasks = projectFixture.tasks := by
  have h := projectOps_preserve_tasks projectFixture 3 7 (by decide) (by decide)
    (by decide)
  exact ⟨⟨by decide, by decide, by decide⟩, h.1 3, h.2.2.1, h.2.2.2.2.1,
    h.2.2.2.2.2⟩

/-- C8: the task lifecycle — creating a task from `{name, creator}`
alone (name ≥ 3 chars, creator ≥ 2 chars after trimming) answers 201
with status `pending` and `completed = false`; updating it with
`{status:"approved", approver:"Bob"}` answers 200 reflecting both
fields; deleting it answers 200; a subsequent get of the same id
answers 404. -/
theorem task_lifecycle (s : Store) (nm cr : String) (n1 n2 : Nat)
    (hn3 : 3 ≤ (jsTrim nm).length) (hn255 : (jsTrim nm).length ≤ 255)
    (hc2 : 2 ≤ (jsTrim cr).length) (hc100 : (jsTrim cr).length ≤ 100)
    (hfresh : ∀ t ∈ s.tasks, ¬t.id = s.nextTaskId) :
    (createTask ⟨some nm, some cr⟩ n1 s).1
      = .ok 201 (some ⟨s.nextTaskId, jsTrim nm, jsTrim cr, "pending", none,
          none, false, n1, n1⟩)
    ∧ (updateTask s.nextTaskId ⟨some "approved", some "Bob", none, none⟩ n2
        (createTask ⟨some nm, some cr⟩ n1 s).2).1
      = .ok 200 (some ⟨s.nextTaskId, jsTrim nm, jsTrim cr, "approved",
          some "Bob", none, false, n1, n2⟩)
    ∧ (deleteTask s.nextTaskId
        (updateTask s.nextTaskId ⟨some "approved", some "Bob", none, none⟩ n2
          (createTask ⟨some nm, some cr⟩ n1 s).2).2).1
      = .ok 200 ()
    ∧ (getTask s.nextTaskId
        (deleteTask s.nextTaskId
          (updateTask s.nextTaskId ⟨some "approved", some "Bob", none, none⟩ n2
            (createTask ⟨some nm, some cr⟩ n1 s).2).2).2).1
      = .err 404 := by
  have hv : validTaskCreate ⟨some nm, some cr⟩ = true := by
    simp [validTaskCreate, hn3, hn255, hc2, hc100]
  have hvu : validTaskUpdate ⟨some "approved", some "Bob", none, none⟩
      = true := by decide
  have hfindnone : s.tasks.find? (fun t => t.id = s.nextTaskId) = none :=
    List.find?_eq_none.mpr (fun t ht => by simpa using hfresh t ht)
  have hfind1 : (s.tasks ++ [(⟨s.nextTaskId, jsTrim nm, jsTrim cr, "pending",
      none, none, false, n1, n1⟩ : TaskRow)]).find?
      (fun t => t.id = s.nextTaskId)
      = some ⟨s.nextTaskId, jsTrim nm, jsTrim cr, "pending", none, none,
          false, n1, n1⟩ := by
    rw [List.find?_append, hfindnone]
    simp
  have hfind2 : (s.tasks ++ [(⟨s.nextTaskId, jsTrim nm, jsTrim cr, "approved",
      some "Bob", none, false, n1, n2⟩ : TaskRow)]).find?
      (fun t => t.id = s.nextTaskId)
      = some ⟨s.nextTaskId, jsTrim nm, jsTrim cr, "approved", some "Bob",
          none, false, n1, n2⟩ := by
    rw [List.find?_append, hfindnone]
    simp
  have hs1 : (createTask ⟨some nm, some cr⟩ n1 s).2
      = { s with
          tasks := s.tasks ++ [⟨s.nextTaskId, jsTrim nm, jsTrim cr, "pending",
            none, none, false, n1, n1⟩]
          nextTaskId := s.nextTaskId + 1 } := by
    simp [createTask, hv]
  have hmap : (s.tasks ++ [(⟨s.nextTaskId, jsTrim nm, jsTrim cr, "pending",
      none, none, false, n1, n1⟩ : TaskRow)]).map
      (fun t => if t.id = s.nextTaskId then
        t.patch ⟨some "approved", some "Bob", none, none⟩ n2 else t)
      = s.tasks ++ [⟨s.nextTaskId, jsTrim nm, jsTrim cr, "approved",
          some "Bob", none, false, n1, n2⟩] := by
    rw [List.map_append]
    rw [map_eq_self_of _ _ (fun t ht => by simp [hfresh t ht])]
    simp [TaskRow.patch]
  have hupd : updateTask s.nextTaskId ⟨some "approved", some "Bob", none, none⟩
      n2 (createTask ⟨some nm, some cr⟩ n1 s).2
      = (.ok 200 (some ⟨s.nextTaskId, jsTrim nm, jsTrim cr, "approved",
          some "Bob", none, false, n1, n2⟩),
         { s with
           tasks := s.tasks ++ [⟨s.nextTaskId, jsTrim nm, jsTrim cr,
             "approved", some "Bob", none, false, n1, n2⟩]
           nextTaskId := s.nextTaskId + 1 }) := by
    rw [hs1]
    simp only [updateTask, hvu, Bool.not_true, Bool.false_eq_true, if_false,
      hfind1, hmap, hfind2]
  have hfilterNil : s.tasks.filter (fun t => t.id = s.nextTaskId) = [] :=
    List.filter_eq_nil_iff.mpr (fun t ht => by simpa using hfresh t ht)
  have hfilterSelf : s.tasks.filter (fun t => !(t.id = s.nextTaskId))
      = s.tasks :=
    List.filter_eq_self.mpr (fun t ht => by simpa using hfresh t ht)
  have hdel : deleteTask s.nextTaskId
      (updateTask s.nextTaskId ⟨some "approved", some "Bob", none, none⟩ n2
        (createTask ⟨some nm, some cr⟩ n1 s).2).2
      = (.ok 200 (), { s with
          tasks := s.tasks
          nextTaskId := s.nextTaskId + 1 }) := by
    rw [hupd]
    simp [deleteTask, List.filter_append, hfilterNil, hfilterSelf]
  refine ⟨?_, ?_, ?_, ?_⟩
  · simp [createTask, hv, hfind1]
  · rw [hupd]
  · rw [hdel]
  · rw [hdel]
    simp [getTask, hfindnone]

/-- Witness for C8: the full lifecycle run on the empty store. -/
theorem task_lifecycle_witness :
    (3 ≤ (jsTrim "Write report").length ∧ (jsTrim "Write report").length ≤ 255
      ∧ 2 ≤ (jsTrim "Ann").length ∧ (jsTrim "Ann").length ≤ 100
      ∧ ∀ t ∈ Store.empty.tasks, ¬t.id = Store.empty.nextTaskId)
    ∧ (createTask ⟨some "Write report", some "Ann"⟩ 0 Store.empty).1
      = .ok 201 (some ⟨Store.empty.nextTaskId, jsTrim "Write report",
          jsTrim "Ann", "pending", none, none, false, 0, 0⟩)
    ∧ (getTask Store.empty.nextTaskId
        (deleteTask Store.empty.nextTaskId
          (updateTask Store.empty.nextTaskId
            ⟨some "approved", some "Bob", none, none⟩ 1
            (createTask ⟨some "Write report", some "Ann"⟩ 0 Store.empty).2).2).2).1
      = .err 404 := by
  have h := task_lifecycle Store.empty "Write report" "Ann" 0 1 (by decide)
    (by decide) (by decide) (by decide) (by simp [Store.empty])
  exact ⟨⟨by decide, by decide, by decide, by decide, by simp [Store.empty]⟩,
    h.1, h.2.2.2⟩

/-- C4 (amended): the Task update endpoint refines the spec's generic
partial-update primitive — for every payload whose supplied values pass
the per-field validators, `updateTask` (from the source) and
`specTaskUpdate` (written from the spec: allow-list restriction, ≥ 1
recognized field, 404 on missing row, SET over exactly the supplied
fields, re-fetch) answer identically, response and store. -/
theorem taskUpdate_refines_generic_update (s : Store) (id now : Nat)
    (b : TaskUpdateBody)
    (hst : b.status.all (fun v => taskStatusEnum.contains v) = true)
    (hap : b.approver.all (fun v => 2 ≤ v.length && v.length ≤ 100) = true)
    (htm : b.timer.all (fun v => 1 ≤ v.length) = true) :
    updateTask id b now s = specTaskUpdate id b.pairs now s := by
  obtain ⟨st, ap, tm, cp⟩ := b
  cases st <;> cases ap <;> cases tm <;> cases cp <;>
    (try simp only [Option.all_some, Option.all_none] at hst hap htm) <;>
    cases hf : s.tasks.find? (fun t => t.id = id) <;>
    (simp [updateTask, specTaskUpdate, TaskUpdateBody.pairs, validTaskUpdate,
      taskAllowList, setTaskField, TaskRow.patch, hf] <;>
      simp_all [Nat.one_le_iff_ne_zero])

/-- Witness for C4 on the one-task fixture with a two-field payload. -/
theorem taskUpdate_refines_generic_update_witness :
    (((some "approved" : Option String).all
        (fun v => taskStatusEnum.contains v) = true)
      ∧ ((some "Bob" : Option String).all
          (fun v => 2 ≤ v.length && v.length ≤ 100) = true)
      ∧ ((none : Option String).all (fun v => 1 ≤ v.length) = true))
    ∧ updateTask 1 ⟨some "approved", some "Bob", none, none⟩ 5 taskFixture
      = specTaskUpdate 1
          (TaskUpdateBody.pairs ⟨some "approved", some "Bob", none, none⟩) 5
          taskFixture := by
  exact ⟨⟨by decide, by decide, by decide⟩,
    taskUpdate_refines_generic_update taskFixture 1 5
      ⟨some "approved", some "Bob", none, none⟩ (by decide) (by decide)
      (by decide)⟩

/-- C4 counterexample: the claim "the generic partial-update protocol is
the same for all six resource controllers, with fields not supplied
keeping their stored values" is false — the Checklist update endpoint,
given a payload supplying only `title`, overwrites the stored
description `"weekly run"` with `""` (and the theme with `"blue"`)
instead of keeping it. -/
theorem checklistUpdate_not_generic_counterexample :
    ((checklistFixture.checklists.find? (fun c => c.id = "c1")).map
        (fun c => c.description) = some "weekly run")
    ∧ (((updateChecklist "c1" ⟨some "New title", none, none⟩ 1
          checklistFixture).2.checklists.find? (fun c => c.id = "c1")).map
        (fun c => c.description) = some "")
    ∧ ("" : String) ≠ "weekly run" := by
  exact ⟨by decide, by decide, by decide⟩

end TaskManager
